import Mathlib

/-!
Shallow embedding of the CapFlow front-end (src/products.js and the unnamed
source file holding api.js, app.js and machines.js), restricted to the parts
the specification claims are about: the fetch wrapper error handling, the
in-memory entity caches, the filter coordinators, form validation and
submission, the count badges, the status toggles and the load operations.

DOM access is embedded by passing the relevant input values and module state
explicitly; the JavaScript builtins trim / toLowerCase / includes are embedded
as executable character-list functions below, and the string-to-number
coercions Number and parseFloat are abstracted to their results (a JSNum,
either a rational or NaN), since no claim depends on the digit-parsing itself.
-/

namespace CapFlow

-- ═══ JS string builtins ══════════════════════════════════════════════════════

/-- Embedding of JavaScript String.prototype.trim: drop leading and trailing
whitespace characters. -/
def jsTrim (s : String) : String :=
  String.mk (((s.data.dropWhile Char.isWhitespace).reverse.dropWhile
    Char.isWhitespace).reverse)

/-- Embedding of JavaScript String.prototype.toLowerCase. -/
def jsToLower (s : String) : String :=
  String.mk (s.data.map Char.toLower)

/-- Helper for strIncludes: does the needle occur at the head of the hay? -/
def listPre (needle hay : List Char) : Bool :=
  match needle, hay with
  | [], _ => true
  | _ :: _, [] => false
  | a :: as, b :: bs => a == b && listPre as bs

/-- Helper for strIncludes: does the needle occur anywhere in the hay? -/
def listIn (needle hay : List Char) : Bool :=
  match hay with
  | [] => needle.isEmpty
  | _ :: t => listPre needle hay || listIn needle t

/-- Embedding of JavaScript String.prototype.includes: s.includes(sub). -/
def strIncludes (s sub : String) : Bool := listIn sub.data s.data

/-- JavaScript truthiness of a string: every string except the empty one. -/
def jsTruthyStr (s : String) : Bool := !(s == "")

/-- Embedding of JavaScript String(b) on a boolean. -/
def jsBoolString (b : Bool) : String := if b then "true" else "false"

-- ═══ JS numbers ══════════════════════════════════════════════════════════════

/-- Result of a JavaScript string-to-number coercion (Number or parseFloat):
either a numeric value, embedded as a rational, or NaN. -/
inductive JSNum where
  | nan : JSNum
  | num : ℚ → JSNum
deriving DecidableEq

/-- Embedding of the JavaScript expression x || 0 on a number x: NaN and 0 are
falsy, any other number is kept. -/
def jsNumOrZero : JSNum → ℚ
  | JSNum.nan => 0
  | JSNum.num q => if q = 0 then 0 else q

/-- Embedding of the JavaScript expression x || null on a number x: NaN and 0
are falsy and give null, any other number is kept. -/
def jsNumOrNull : JSNum → Option ℚ
  | JSNum.nan => none
  | JSNum.num q => if q = 0 then none else some q

/-- Embedding of the JavaScript comparison x < 0 on a number x: a comparison
with NaN is false. -/
def jsNumLtZero : JSNum → Bool
  | JSNum.nan => false
  | JSNum.num q => decide (q < 0)

-- ═══ Data model ══════════════════════════════════════════════════════════════

/-- A machine record as held in the machines.js cache allMachines. The
lifecycle flag isActive is an Option so that an absent flag (treated by the
code as active via isActive !== false checks) is representable. Ids are
strings; the code always compares them through String(...). -/
structure Machine where
  id : String
  name : String
  code : String
  notes : String
  isActive : Option Bool
deriving DecidableEq

/-- A product record as held in the products.js cache allProducts. -/
structure Product where
  id : String
  name : String
  type : String
  priceStandard : JSNum
  priceInvestor : JSNum
  active : Option Bool
deriving DecidableEq

-- ═══ api.js request wrapper ══════════════════════════════════════════════════

/-- The JSON value obtained from response.json(), as far as the request
wrapper inspects it: an object whose message property is a string or absent,
or any other JSON value (on which reading .message yields undefined, and on
null throws inside the guarded block). Non-string message values are not
distinguished from an absent one beyond what the claims need. -/
inductive JsonValue where
  | obj : Option String → JsonValue
  | other : JsonValue
deriving DecidableEq

/-- An HTTP response as observed by request in api.js: status, statusText and
the outcome of response.json() (none when the body is not parseable JSON, in
which case response.json() rejects and the catch block in the error path
ignores it). -/
structure HttpResponse where
  status : Nat
  statusText : String
  jsonResult : Option JsonValue
deriving DecidableEq

/-- Embedding of the fetch Response.ok flag: status in the range 200-299. -/
def respOk (status : Nat) : Bool := 200 ≤ status && status ≤ 299

/-- Outcome of the request wrapper: a thrown Error with its message, a
resolution with no payload (the 204 branch returning null), or the passthrough
of the final response.json() call (none there models a body that is not valid
JSON, whose rejection propagates to the caller). -/
inductive RequestResult where
  | thrown : String → RequestResult
  | resolvedNull : RequestResult
  | resolvedBody : Option JsonValue → RequestResult
deriving DecidableEq

/-- Embedding of request in api.js, lines 15-50 of the api source: on a
non-2xx response build the generic "Error status: statusText" message, then
try to read a message property out of the parsed JSON body — the JavaScript
expression errorData.message || errorMessage keeps the generic message
whenever the property is absent or falsy (in particular the empty string) —
and throw; on 204 resolve to null without touching the body; otherwise return
the parsed body. -/
def request (r : HttpResponse) : RequestResult :=
  if !(respOk r.status) then
    let generic := "Error " ++ toString r.status ++ ": " ++ r.statusText
    let msg :=
      match r.jsonResult with
      | some (JsonValue.obj (some m)) => if m == "" then generic else m
      | _ => generic
    RequestResult.thrown msg
  else if r.status == 204 then
    RequestResult.resolvedNull
  else
    RequestResult.resolvedBody r.jsonResult

-- ═══ machines.js filter coordinator ══════════════════════════════════════════

/-- The text-search step of applyFilters in machines.js: when the normalized
query is truthy, keep the machines whose lowercased name or code contains it. -/
def machinesTextFilter (query : String) (l : List Machine) : List Machine :=
  if jsTruthyStr query then
    l.filter (fun m =>
      strIncludes (jsToLower m.name) query || strIncludes (jsToLower m.code) query)
  else l

/-- The status step of applyFilters in machines.js: active keeps machines
whose isActive is not strictly false, inactive keeps those whose isActive is
strictly false, anything else keeps everything. -/
def machinesStatusFilter (status : String) (l : List Machine) : List Machine :=
  if status == "active" then
    l.filter (fun m => !(m.isActive == some false))
  else if status == "inactive" then
    l.filter (fun m => m.isActive == some false)
  else l

/-- The results computed by applyFilters in machines.js: trim and lowercase
the raw search input, then run the text filter and the status filter over the
cache in that order. -/
def applyFiltersResults (cache : List Machine) (rawQuery status : String) :
    List Machine :=
  machinesStatusFilter status (machinesTextFilter (jsToLower (jsTrim rawQuery)) cache)

/-- Embedding of updateCountBadge in machines.js: filtered is null when no
filter is narrowing; the badge shows "f de t máquina(s)" when a distinct
filtered count is supplied, else the plain total, pluralized on the total. -/
def machinesUpdateCountBadge (total : Nat) (filtered : Option Nat) : String :=
  let plural := if total ≠ 1 then "s" else ""
  match filtered with
  | some f =>
    if f ≠ total then
      toString f ++ " de " ++ toString total ++ " máquina" ++ plural
    else
      toString total ++ " máquina" ++ plural
  | none => toString total ++ " máquina" ++ plural

/-- Full embedding of applyFilters in machines.js as far as its observable
effects go: the rendered results and the badge text. isFiltered is truthy when
the normalized query is nonempty or the status selector is not "all"; the
badge then receives the filtered count, else null. (The assignment persisting
the status into the module-level activeFilter variable has no bearing on any
claim and is not modelled.) -/
def machinesApplyFilters (cache : List Machine) (rawQuery status : String) :
    List Machine × String :=
  let query := jsToLower (jsTrim rawQuery)
  let results := machinesStatusFilter status (machinesTextFilter query cache)
  let isFiltered := jsTruthyStr query || !(status == "all")
  (results,
   machinesUpdateCountBadge cache.length (if isFiltered then some results.length else none))

-- ═══ products.js search and badge ════════════════════════════════════════════

/-- Embedding of the filtering done by handleSearch in products.js: trim and
lowercase the input; when truthy, keep the products whose lowercased name
contains it, else show the whole cache. -/
def productsSearchResults (cache : List Product) (raw : String) : List Product :=
  let query := jsToLower (jsTrim raw)
  if jsTruthyStr query then
    cache.filter (fun p => strIncludes (jsToLower p.name) query)
  else cache

/-- Embedding of updateCountBadge in products.js: always the plain count,
pluralized. -/
def productsUpdateCountBadge (count : Nat) : String :=
  toString count ++ " producto" ++ (if count ≠ 1 then "s" else "")

/-- The observable table-related state of the Products module: the cache, the
badge text and the rows currently rendered. -/
structure ProductsTableView where
  allProducts : List Product
  badgeText : String
  rendered : List Product
deriving DecidableEq

/-- State after a successful loadProducts: cache replaced wholesale, table
re-rendered from it, badge updated with the cache length. -/
def productsLoadOkState (fetched : List Product) : ProductsTableView :=
  { allProducts := fetched
    badgeText := productsUpdateCountBadge fetched.length
    rendered := fetched }

/-- Embedding of handleSearch in products.js: re-render the table with the
matching rows. The handler calls renderTable only — it does not touch the
count badge. -/
def productsHandleSearch (st : ProductsTableView) (raw : String) :
    ProductsTableView :=
  { st with rendered := productsSearchResults st.allProducts raw }

-- ═══ load operations ═════════════════════════════════════════════════════════

/-- Embedding of loadMachines in machines.js: the fetched parameter is the
outcome of MachinesAPI.getAll(). On success the cache is replaced wholesale;
on a thrown error the assignment never runs, the cache keeps its prior value
and the error feedback ("Error al cargar máquinas: ...") is returned as the
second component. -/
def loadMachines (cache : List Machine) (fetched : Except String (List Machine)) :
    List Machine × Option String :=
  match fetched with
  | Except.ok l => (l, none)
  | Except.error e => (cache, some ("Error al cargar máquinas: " ++ e))

/-- Embedding of loadProducts in products.js, same shape as loadMachines. -/
def loadProducts (cache : List Product) (fetched : Except String (List Product)) :
    List Product × Option String :=
  match fetched with
  | Except.ok l => (l, none)
  | Except.error e => (cache, some ("Error al cargar productos: " ++ e))

-- ═══ machines.js duplicate checks and validation ═════════════════════════════

/-- Embedding of isNameDuplicate in machines.js: normalize the candidate by
trim and toLowerCase, then scan the cache; a row whose String(id) equals the
String(id) of the machine currently being edited is skipped, any other row
matches when its own trimmed, lowercased name equals the normalized
candidate. -/
def isNameDuplicate (allMachines : List Machine) (editingMachine : Option Machine)
    (name : String) : Bool :=
  let normalized := jsToLower (jsTrim name)
  allMachines.any fun m =>
    match editingMachine with
    | some e => if m.id == e.id then false else jsToLower (jsTrim m.name) == normalized
    | none => jsToLower (jsTrim m.name) == normalized

/-- Embedding of isCodeDuplicate in machines.js, same shape as
isNameDuplicate but over the code field. -/
def isCodeDuplicate (allMachines : List Machine) (editingMachine : Option Machine)
    (code : String) : Bool :=
  let normalized := jsToLower (jsTrim code)
  allMachines.any fun m =>
    match editingMachine with
    | some e => if m.id == e.id then false else jsToLower (jsTrim m.code) == normalized
    | none => jsToLower (jsTrim m.code) == normalized

/-- The name branch of validateForm in machines.js: the trimmed name must be
nonempty and must not duplicate another cached machine; each failing check
shows one field-scoped error (pair of error-element id and message). -/
def machinesNameErrors (allMachines : List Machine)
    (editingMachine : Option Machine) (nameRaw : String) : List (String × String) :=
  let name := jsTrim nameRaw
  if !(jsTruthyStr name) then
    [("machine-error-name", "El nombre de la máquina es obligatorio.")]
  else if isNameDuplicate allMachines editingMachine name then
    [("machine-error-name",
      "Ya existe una máquina llamada \"" ++ name ++ "\". Usa un nombre diferente.")]
  else []

/-- The code branch of validateForm in machines.js, analogous to the name
branch. -/
def machinesCodeErrors (allMachines : List Machine)
    (editingMachine : Option Machine) (codeRaw : String) : List (String × String) :=
  let code := jsTrim codeRaw
  if !(jsTruthyStr code) then
    [("machine-error-code", "El código de la máquina es obligatorio.")]
  else if isCodeDuplicate allMachines editingMachine code then
    [("machine-error-code",
      "El código \"" ++ code ++ "\" ya está en uso. Ingresa un código único.")]
  else []

/-- Embedding of validateForm in machines.js: the boolean is the valid flag;
the list collects the showFieldError calls in source order. The valid flag is
false exactly when some error was shown. -/
def machinesValidateForm (allMachines : List Machine)
    (editingMachine : Option Machine) (nameRaw codeRaw : String) :
    Bool × List (String × String) :=
  let nameErrors := machinesNameErrors allMachines editingMachine nameRaw
  let codeErrors := machinesCodeErrors allMachines editingMachine codeRaw
  (nameErrors.isEmpty && codeErrors.isEmpty, nameErrors ++ codeErrors)

-- ═══ products.js validation ══════════════════════════════════════════════════

/-- The product form inputs as read by validateForm and collectFormData in
products.js. The two numeric coercions applied to the price inputs are
carried as their results: priceNum is Number(priceRaw) as used by validateForm,
priceFloat and investorFloat are the parseFloat results used by
collectFormData. -/
structure ProductForm where
  name : String
  type : String
  priceRaw : String
  priceNum : JSNum
  priceFloat : JSNum
  investorFloat : JSNum
  activeValue : String
deriving DecidableEq

/-- The name branch of validateForm in products.js: the trimmed name must be
nonempty. -/
def productsNameErrors (f : ProductForm) : List (String × String) :=
  if !(jsTruthyStr (jsTrim f.name)) then
    [("error-name", "El nombre del producto es obligatorio.")]
  else []

/-- The type branch of validateForm in products.js: a type must be selected. -/
def productsTypeErrors (f : ProductForm) : List (String × String) :=
  if !(jsTruthyStr f.type) then
    [("error-type", "Selecciona el tipo de producto.")]
  else []

/-- The price branch of validateForm in products.js: the raw value must be
nonempty and its Number coercion must not be below zero (a NaN comparison is
false, so a non-numeric nonempty price passes this check, exactly as in the
source). -/
def productsPriceErrors (f : ProductForm) : List (String × String) :=
  if !(jsTruthyStr f.priceRaw) || jsNumLtZero f.priceNum then
    [("error-price-standard", "Ingresa un precio estándar válido.")]
  else []

/-- Embedding of validateForm in products.js: required name, type and price
checks in source order. No uniqueness check of any kind appears in this
function. -/
def productsValidateForm (f : ProductForm) : Bool × List (String × String) :=
  let nameErrors := productsNameErrors f
  let typeErrors := productsTypeErrors f
  let priceErrors := productsPriceErrors f
  (nameErrors.isEmpty && (typeErrors.isEmpty && priceErrors.isEmpty),
   nameErrors ++ typeErrors ++ priceErrors)

-- ═══ payload collection ══════════════════════════════════════════════════════

/-- The payload sent by the products form, as built by collectFormData. -/
structure ProductPayload where
  name : String
  type : String
  priceStandard : ℚ
  priceInvestor : Option ℚ
  active : Bool
deriving DecidableEq

/-- Embedding of collectFormData in products.js: trimmed name, raw type,
parseFloat(priceStandard) || 0, parseFloat(priceInvestor) || null, and the
active select compared against the string "true". -/
def collectFormData (f : ProductForm) : ProductPayload :=
  { name := jsTrim f.name
    type := f.type
    priceStandard := jsNumOrZero f.priceFloat
    priceInvestor := jsNumOrNull f.investorFloat
    active := f.activeValue == "true" }

/-- The payload sent by the machines form, as built by collectFormData in
machines.js; isActive is present only when the status group is visible
(edit mode). -/
structure MachinePayload where
  name : String
  code : String
  notes : String
  isActive : Option Bool
deriving DecidableEq

/-- Embedding of collectFormData in machines.js: trimmed name and code, the
trimmed notes passed through value.trim() || two-quote empty string, and
isActive included only when the status field is visible. -/
def machinesCollectFormData (nameRaw codeRaw notesRaw : String)
    (statusVisible : Bool) (activeValue : String) : MachinePayload :=
  { name := jsTrim nameRaw
    code := jsTrim codeRaw
    notes := if jsTruthyStr (jsTrim notesRaw) then jsTrim notesRaw else ""
    isActive := if statusVisible then some (activeValue == "true") else none }

-- ═══ form submission ═════════════════════════════════════════════════════════

/-- What a submit handler does after validation: abort with the shown field
errors, or reach the API create call, or reach the API update call for the
given entity id. -/
inductive SubmitOutcome (π : Type) where
  | rejected : List (String × String) → SubmitOutcome π
  | created : π → SubmitOutcome π
  | updated : String → π → SubmitOutcome π
deriving DecidableEq

/-- Whether a submit outcome is the rejected (validation failed) one. -/
def isRejected {π : Type} : SubmitOutcome π → Bool
  | SubmitOutcome.rejected _ => true
  | _ => false

/-- Embedding of the synchronous decision made by handleFormSubmit in
machines.js: run validateForm; when it fails, return before any API call with
the shown errors; otherwise collect the payload and reach update (edit mode)
or create. -/
def machinesSubmitOutcome (allMachines : List Machine)
    (editingMachine : Option Machine)
    (nameRaw codeRaw notesRaw activeValue : String) (statusVisible : Bool) :
    SubmitOutcome MachinePayload :=
  let v := machinesValidateForm allMachines editingMachine nameRaw codeRaw
  if v.1 then
    let payload := machinesCollectFormData nameRaw codeRaw notesRaw statusVisible activeValue
    match editingMachine with
    | some e => SubmitOutcome.updated e.id payload
    | none => SubmitOutcome.created payload
  else SubmitOutcome.rejected v.2

/-- The machines cache after a handleFormSubmit run: when validation fails the
handler returns before any API call, so the cache is untouched; on the success
path the API call either throws (caught, cache untouched) or completes and is
followed by the full loadMachines reload with outcome reloadFetch. -/
def machinesCacheAfterSubmit (allMachines : List Machine)
    (editingMachine : Option Machine)
    (nameRaw codeRaw notesRaw activeValue : String) (statusVisible : Bool)
    (apiOk : Bool) (reloadFetch : Except String (List Machine)) : List Machine :=
  match machinesSubmitOutcome allMachines editingMachine nameRaw codeRaw
      notesRaw activeValue statusVisible with
  | SubmitOutcome.rejected _ => allMachines
  | _ => if apiOk then (loadMachines allMachines reloadFetch).1 else allMachines

/-- Embedding of the synchronous decision made by handleFormSubmit in
products.js. validateForm there reads only the form fields, so the outcome is
a function of the form and the edit reference alone — the cache is not
consulted at all. -/
def productsSubmitOutcome (editingProduct : Option Product) (f : ProductForm) :
    SubmitOutcome ProductPayload :=
  let v := productsValidateForm f
  if v.1 then
    match editingProduct with
    | some e => SubmitOutcome.updated e.id (collectFormData f)
    | none => SubmitOutcome.created (collectFormData f)
  else SubmitOutcome.rejected v.2

/-- The products cache after a handleFormSubmit run, same shape as
machinesCacheAfterSubmit. -/
def productsCacheAfterSubmit (allProducts : List Product)
    (editingProduct : Option Product) (f : ProductForm)
    (apiOk : Bool) (reloadFetch : Except String (List Product)) : List Product :=
  match productsSubmitOutcome editingProduct f with
  | SubmitOutcome.rejected _ => allProducts
  | _ => if apiOk then (loadProducts allProducts reloadFetch).1 else allProducts

-- ═══ status toggle ═══════════════════════════════════════════════════════════

/-- The machines form state touched by handleToggleStatus: the machine held in
edit mode and the value of the machine-field-active select. -/
structure MachinesFormState where
  editingMachine : Option Machine
  activeFieldValue : String
deriving DecidableEq

/-- Embedding of handleToggleStatus in machines.js. confirmOk is the result of
the confirm dialog; apiResult is the outcome of the activate / deactivate
call. On success, when the toggled id equals the id of the machine in edit
mode, editingMachine is replaced by a copy with the flipped isActive and the
status select is set to String of the new value; then loadMachines runs (third
component true). On failure the state is untouched and an error feedback is
shown. -/
def machinesHandleToggleStatus (fs : MachinesFormState) (machineId : String)
    (currentlyActive : Bool) (confirmOk : Bool) (apiResult : Except String Unit) :
    MachinesFormState × Option String × Bool :=
  if !confirmOk then (fs, none, false)
  else
    match apiResult with
    | Except.ok _ =>
      let feedback := if currentlyActive then "Máquina desactivada." else "Máquina activada."
      let fs2 :=
        match fs.editingMachine with
        | some e =>
          if e.id == machineId then
            { editingMachine := some { e with isActive := some (!currentlyActive) }
              activeFieldValue := jsBoolString (!currentlyActive) }
          else fs
        | none => fs
      (fs2, some feedback, true)
    | Except.error msg => (fs, some ("Error al cambiar estado: " ++ msg), false)

/-- The products form state touched (or rather, not touched) by
handleToggleStatus in products.js. -/
structure ProductsFormState where
  editingProduct : Option Product
  activeFieldValue : String
deriving DecidableEq

/-- Embedding of handleToggleStatus in products.js: confirm, call setStatus,
show feedback, reload. The handler contains no statement that reads or writes
the form, so the form state passes through unchanged on every path. -/
def productsHandleToggleStatus (fs : ProductsFormState) (productId : String)
    (currentlyActive : Bool) (confirmOk : Bool) (apiResult : Except String Unit) :
    ProductsFormState × Option String × Bool :=
  if !confirmOk then (fs, none, false)
  else
    match apiResult with
    | Except.ok _ =>
      (fs, some (if currentlyActive then "Producto desactivado." else "Producto activado."), true)
    | Except.error msg => (fs, some ("Error al cambiar estado: " ++ msg), false)

-- ═══ sample data for concrete witnesses ══════════════════════════════════════

/-- A sample active machine. -/
def mInyectora : Machine :=
  { id := "1", name := "Inyectora", code := "INY-001", notes := "", isActive := some true }

/-- A sample inactive machine. -/
def mPrensa : Machine :=
  { id := "2", name := "Prensa", code := "PRE-002", notes := "", isActive := some false }

/-- A sample product. -/
def pTapa : Product :=
  { id := "1", name := "Tapa", type := "produced",
    priceStandard := JSNum.num 5, priceInvestor := JSNum.nan, active := some true }

/-- A second sample product whose name does not contain "tapa". -/
def pMotor : Product :=
  { id := "2", name := "Motor", type := "resale",
    priceStandard := JSNum.num 3, priceInvestor := JSNum.nan, active := some true }

-- ═══ claim-side predicates (from the words of the spec) ══════════════════════

/-- The per-machine predicate of claim C4, written from the words of the spec:
a case-insensitive substring match of the trimmed query against name or code,
AND the status predicate (inactive means isActive strictly false, active means
isActive not strictly false, anything else keeps everything). -/
def machineMatchesClaim (rawQuery status : String) (m : Machine) : Bool :=
  (strIncludes (jsToLower m.name) (jsToLower (jsTrim rawQuery)) ||
   strIncludes (jsToLower m.code) (jsToLower (jsTrim rawQuery))) &&
  (if status == "inactive" then m.isActive == some false
   else if status == "active" then !(m.isActive == some false)
   else true)

/-- The per-product predicate of claim C4, written from the words of the spec:
a case-insensitive substring match of the trimmed query against the name. -/
def productMatchesClaim (raw : String) (p : Product) : Bool :=
  strIncludes (jsToLower p.name) (jsToLower (jsTrim raw))

/-- Sample form for the C10 witness: investor price explicitly 0, standard
price not a number. -/
def c10SampleForm : ProductForm :=
  { name := "Tapa", type := "produced", priceRaw := "abc",
    priceNum := JSNum.nan, priceFloat := JSNum.nan,
    investorFloat := JSNum.num 0, activeValue := "true" }

/-- Sample form for the C1 counterexample: every required product field is
valid and the name duplicates the cached product pTapa. -/
def c1DupForm : ProductForm :=
  { name := "Tapa", type := "produced", priceRaw := "5",
    priceNum := JSNum.num 5, priceFloat := JSNum.num 5,
    investorFloat := JSNum.nan, activeValue := "true" }

/-- Products table state for the C3 counterexample: load two products, then
type a query matching only the first. -/
def c3ProductsState : ProductsTableView :=
  productsHandleSearch (productsLoadOkState [pTapa, pMotor]) "tapa"

/-- Products form state for the C2 counterexample: pTapa is open in the edit
form with its status select showing "true". -/
def c2ProdState : ProductsFormState :=
  { editingProduct := some pTapa, activeFieldValue := "true" }

/-- Response for the C8 counterexample: HTTP 500 whose JSON body carries an
empty-string message property. -/
def c8Resp : HttpResponse :=
  { status := 500, statusText := "Internal Server Error",
    jsonResult := some (JsonValue.obj (some "")) }

-- ═══ helper lemmas ═══════════════════════════════════════════════════════════

/-- The empty needle occurs in every character list. -/
theorem listIn_nil (l : List Char) : listIn [] l = true := by
  induction l with
  | nil => rfl
  | cons a t ih => simp [listIn, listPre, ih]

/-- Every string includes the empty string. -/
theorem strIncludes_empty (s : String) : strIncludes s "" = true := by
  show listIn "".data s.data = true
  rw [show "".data = ([] : List Char) from rfl]
  exact listIn_nil s.data

/-- A string is JS-falsy exactly when it is empty. -/
theorem jsTruthyStr_eq_false_iff (s : String) : jsTruthyStr s = false ↔ s = "" := by
  simp [jsTruthyStr]

/-- The text-filter step yields a sublist of its input. -/
theorem machinesTextFilter_sublist (q : String) (l : List Machine) :
    (machinesTextFilter q l).Sublist l := by
  unfold machinesTextFilter
  split
  · exact List.filter_sublist l
  · exact List.Sublist.refl l

/-- The status-filter step yields a sublist of its input. -/
theorem machinesStatusFilter_sublist (s : String) (l : List Machine) :
    (machinesStatusFilter s l).Sublist l := by
  unfold machinesStatusFilter
  split
  · exact List.filter_sublist l
  · split
    · exact List.filter_sublist l
    · exact List.Sublist.refl l

/-- Characterization of the duplicate-scan used by both machine duplicate
checks, in edit mode: the scan fires exactly when a row with a different id
matches the normalized candidate. -/
theorem any_skip_iff (cache : List Machine) (xid : String) (f : Machine → String)
    (normalized : String) :
    (cache.any fun m => if m.id == xid then false else (f m == normalized)) = true ↔
      ∃ m ∈ cache, m.id ≠ xid ∧ f m = normalized := by
  rw [List.any_eq_true]
  constructor
  · rintro ⟨m, hm, h⟩
    by_cases hid : (m.id == xid) = true
    · rw [if_pos hid] at h
      exact absurd h (by simp)
    · rw [if_neg hid] at h
      exact ⟨m, hm, by simpa using hid, by simpa using h⟩
  · rintro ⟨m, hm, hne, heq⟩
    refine ⟨m, hm, ?_⟩
    rw [if_neg (by simpa using hne)]
    simpa using heq

/-- Reduction of the status-filter step at the literal "all". -/
theorem machinesStatusFilter_all (l : List Machine) :
    machinesStatusFilter "all" l = l := rfl

/-- Reduction of the status-filter step at the literal "active". -/
theorem machinesStatusFilter_active (l : List Machine) :
    machinesStatusFilter "active" l =
      l.filter (fun m => !(m.isActive == some false)) := rfl

/-- Reduction of the status-filter step at the literal "inactive". -/
theorem machinesStatusFilter_inactive (l : List Machine) :
    machinesStatusFilter "inactive" l =
      l.filter (fun m => m.isActive == some false) := rfl

/-- Reduction of the text-filter step on a truthy query. -/
theorem machinesTextFilter_truthy {q : String} (hq : jsTruthyStr q = true)
    (l : List Machine) :
    machinesTextFilter q l =
      l.filter (fun m =>
        strIncludes (jsToLower m.name) q || strIncludes (jsToLower m.code) q) := by
  unfold machinesTextFilter
  rw [if_pos hq]

/-- Reduction of the text-filter step on a falsy query. -/
theorem machinesTextFilter_falsy {q : String} (hq : jsTruthyStr q = false)
    (l : List Machine) : machinesTextFilter q l = l := by
  unfold machinesTextFilter
  rw [if_neg (by simp [hq])]

/-- Reduction of the claim predicate at status "all". -/
theorem machineMatchesClaim_all (rq : String) (m : Machine) :
    machineMatchesClaim rq "all" m =
      ((strIncludes (jsToLower m.name) (jsToLower (jsTrim rq)) ||
        strIncludes (jsToLower m.code) (jsToLower (jsTrim rq))) && true) := rfl

/-- Reduction of the claim predicate at status "active". -/
theorem machineMatchesClaim_active (rq : String) (m : Machine) :
    machineMatchesClaim rq "active" m =
      ((strIncludes (jsToLower m.name) (jsToLower (jsTrim rq)) ||
        strIncludes (jsToLower m.code) (jsToLower (jsTrim rq))) &&
       !(m.isActive == some false)) := rfl

/-- Reduction of the claim predicate at status "inactive". -/
theorem machineMatchesClaim_inactive (rq : String) (m : Machine) :
    machineMatchesClaim rq "inactive" m =
      ((strIncludes (jsToLower m.name) (jsToLower (jsTrim rq)) ||
        strIncludes (jsToLower m.code) (jsToLower (jsTrim rq))) &&
       (m.isActive == some false)) := rfl

/-- A pair of error lists whose emptiness conjunction is false cannot
concatenate to the empty list. -/
theorem pair_errors_ne_nil {a b : List (String × String)}
    (h : (a.isEmpty && b.isEmpty) = false) : a ++ b ≠ [] := by
  intro hc
  rcases List.append_eq_nil.mp hc with ⟨ha, hb⟩
  subst ha; subst hb
  simp at h

/-- Same for a triple of error lists. -/
theorem triple_errors_ne_nil {a b c : List (String × String)}
    (h : (a.isEmpty && (b.isEmpty && c.isEmpty)) = false) : a ++ b ++ c ≠ [] := by
  intro hc
  rcases List.append_eq_nil.mp hc with ⟨hab, hcc⟩
  rcases List.append_eq_nil.mp hab with ⟨ha, hb⟩
  subst ha; subst hb; subst hcc
  simp at h

-- ═══ claims ══════════════════════════════════════════════════════════════════

/-- Claim C6: if the fetch-all performed by load() fails, the previously
cached entity list is left completely unchanged (no partial replacement) and
the error is surfaced to the user as a feedback message, in both modules. -/
theorem c6_load_failure_preserves_cache :
    (∀ (cache : List Machine) (e : String),
       loadMachines cache (Except.error e) =
         (cache, some ("Error al cargar máquinas: " ++ e))) ∧
    (∀ (cache : List Product) (e : String),
       loadProducts cache (Except.error e) =
         (cache, some ("Error al cargar productos: " ++ e))) :=
  ⟨fun _ _ => rfl, fun _ _ => rfl⟩

/-- Claim C9: with machine X in EDIT state, the machines duplicate checks
report a duplicate exactly when some cached machine with an id different from
X carries the same trimmed, lowercased name (resp. code); in particular X
itself never counts as its own duplicate. -/
theorem c9_duplicate_checks_exclude_edited :
    ∀ (cache : List Machine) (x : Machine) (nameRaw codeRaw : String),
      (isNameDuplicate cache (some x) nameRaw = true ↔
        ∃ m ∈ cache, m.id ≠ x.id ∧
          jsToLower (jsTrim m.name) = jsToLower (jsTrim nameRaw)) ∧
      (isCodeDuplicate cache (some x) codeRaw = true ↔
        ∃ m ∈ cache, m.id ≠ x.id ∧
          jsToLower (jsTrim m.code) = jsToLower (jsTrim codeRaw)) := by
  intro cache x nameRaw codeRaw
  constructor
  · exact any_skip_iff cache x.id (fun m => jsToLower (jsTrim m.name))
      (jsToLower (jsTrim nameRaw))
  · exact any_skip_iff cache x.id (fun m => jsToLower (jsTrim m.code))
      (jsToLower (jsTrim codeRaw))

/-- Claim C10: the Products payload builder transmits priceInvestor as null
whenever the investor input parses to 0 or to NaN, and transmits priceStandard
as 0 whenever the standard input parses to NaN. -/
theorem c10_collect_price_coercions :
    ∀ (f : ProductForm),
      ((f.investorFloat = JSNum.nan ∨ f.investorFloat = JSNum.num 0) →
        (collectFormData f).priceInvestor = none) ∧
      (f.priceFloat = JSNum.nan → (collectFormData f).priceStandard = 0) := by
  intro f
  constructor
  · rintro (h | h) <;> simp [collectFormData, jsNumOrNull, h]
  · intro h
    simp [collectFormData, jsNumOrZero, h]

/-- Witness for C10 at a concrete form. -/
theorem c10_collect_price_coercions_witness :
    (collectFormData c10SampleForm).priceInvestor = none ∧
    (collectFormData c10SampleForm).priceStandard = 0 :=
  ⟨(c10_collect_price_coercions c10SampleForm).1 (Or.inr rfl),
   (c10_collect_price_coercions c10SampleForm).2 rfl⟩

/-- Claim C5: the filter coordinator of each module is a pure function of
(cache, query, status) — the embedding makes a second run on unchanged inputs
literally the same value — and its output is a sublist (subsequence in
original order) of the cache. -/
theorem c5_filter_pure_order :
    (∀ (cache : List Machine) (rawQuery status : String),
       applyFiltersResults cache rawQuery status =
         applyFiltersResults cache rawQuery status ∧
       (applyFiltersResults cache rawQuery status).Sublist cache) ∧
    (∀ (cache : List Product) (raw : String),
       productsSearchResults cache raw = productsSearchResults cache raw ∧
       (productsSearchResults cache raw).Sublist cache) := by
  constructor
  · intro cache rawQuery status
    refine ⟨rfl, ?_⟩
    exact (machinesStatusFilter_sublist status _).trans
      (machinesTextFilter_sublist _ cache)
  · intro cache raw
    refine ⟨rfl, ?_⟩
    show (if jsTruthyStr (jsToLower (jsTrim raw)) = true then
        List.filter (fun p => strIncludes (jsToLower p.name) (jsToLower (jsTrim raw))) cache
      else cache).Sublist cache
    split
    · exact List.filter_sublist cache
    · exact List.Sublist.refl cache

/-- Claim C4: for every cache and every (query, status) input with status in
the closed enumeration, the filter output is exactly the cache entries
satisfying the AND of the case-insensitive trimmed-substring match (name for
Products, name or code for Machines) and the status predicate in which
"inactive" means isActive strictly false, "active" means isActive not
strictly false (absent flag counts as active), and "all" keeps everything. -/
theorem c4_filter_exact :
    (∀ (cache : List Machine) (rawQuery status : String),
       status = "all" ∨ status = "active" ∨ status = "inactive" →
       applyFiltersResults cache rawQuery status =
         cache.filter (machineMatchesClaim rawQuery status)) ∧
    (∀ (cache : List Product) (raw : String),
       productsSearchResults cache raw = cache.filter (productMatchesClaim raw)) := by
  constructor
  · intro cache rawQuery status hs
    rcases hs with h | h | h <;> subst h <;> unfold applyFiltersResults
    · rw [machinesStatusFilter_all]
      by_cases hq : jsTruthyStr (jsToLower (jsTrim rawQuery)) = true
      · rw [machinesTextFilter_truthy hq]
        refine List.filter_congr ?_
        intro m _
        rw [machineMatchesClaim_all, Bool.and_true]
      · have hq' : jsTruthyStr (jsToLower (jsTrim rawQuery)) = false :=
          Bool.eq_false_iff.mpr hq
        have hq0 : jsToLower (jsTrim rawQuery) = "" :=
          (jsTruthyStr_eq_false_iff _).mp hq'
        rw [machinesTextFilter_falsy hq']
        symm
        rw [List.filter_eq_self]
        intro m _
        rw [machineMatchesClaim_all, Bool.and_true, hq0]
        simp [strIncludes_empty]
    · by_cases hq : jsTruthyStr (jsToLower (jsTrim rawQuery)) = true
      · rw [machinesTextFilter_truthy hq, machinesStatusFilter_active,
          List.filter_filter]
        refine List.filter_congr ?_
        intro m _
        rw [machineMatchesClaim_active]
        exact Bool.and_comm _ _
      · have hq' : jsTruthyStr (jsToLower (jsTrim rawQuery)) = false :=
          Bool.eq_false_iff.mpr hq
        have hq0 : jsToLower (jsTrim rawQuery) = "" :=
          (jsTruthyStr_eq_false_iff _).mp hq'
        rw [machinesTextFilter_falsy hq', machinesStatusFilter_active]
        refine List.filter_congr ?_
        intro m _
        rw [machineMatchesClaim_active, hq0]
        simp [strIncludes_empty]
    · by_cases hq : jsTruthyStr (jsToLower (jsTrim rawQuery)) = true
      · rw [machinesTextFilter_truthy hq, machinesStatusFilter_inactive,
          List.filter_filter]
        refine List.filter_congr ?_
        intro m _
        rw [machineMatchesClaim_inactive]
        exact Bool.and_comm _ _
      · have hq' : jsTruthyStr (jsToLower (jsTrim rawQuery)) = false :=
          Bool.eq_false_iff.mpr hq
        have hq0 : jsToLower (jsTrim rawQuery) = "" :=
          (jsTruthyStr_eq_false_iff _).mp hq'
        rw [machinesTextFilter_falsy hq', machinesStatusFilter_inactive]
        refine List.filter_congr ?_
        intro m _
        rw [machineMatchesClaim_inactive, hq0]
        simp [strIncludes_empty]
  · intro cache raw
    by_cases hq : jsTruthyStr (jsToLower (jsTrim raw)) = true
    · show (if jsTruthyStr (jsToLower (jsTrim raw)) = true then
          List.filter (fun p => strIncludes (jsToLower p.name) (jsToLower (jsTrim raw))) cache
        else cache) = cache.filter (productMatchesClaim raw)
      rw [if_pos hq]
      rfl
    · have hq' : jsTruthyStr (jsToLower (jsTrim raw)) = false :=
        Bool.eq_false_iff.mpr hq
      have hq0 : jsToLower (jsTrim raw) = "" :=
        (jsTruthyStr_eq_false_iff _).mp hq'
      show (if jsTruthyStr (jsToLower (jsTrim raw)) = true then
          List.filter (fun p => strIncludes (jsToLower p.name) (jsToLower (jsTrim raw))) cache
        else cache) = cache.filter (productMatchesClaim raw)
      rw [if_neg hq]
      symm
      rw [List.filter_eq_self]
      intro p _
      unfold productMatchesClaim
      rw [hq0]
      exact strIncludes_empty _

/-- Witness for C4 at a concrete cache and inputs, with the filter result
also evaluated. -/
theorem c4_filter_exact_witness :
    applyFiltersResults [mInyectora, mPrensa] " Iny " "active" =
      List.filter (machineMatchesClaim " Iny " "active") [mInyectora, mPrensa] ∧
    applyFiltersResults [mInyectora, mPrensa] " Iny " "active" = [mInyectora] :=
  ⟨c4_filter_exact.1 [mInyectora, mPrensa] " Iny " "active" (Or.inr (Or.inl rfl)),
   by decide⟩

/-- Unfolding of the applyFilters embedding into its results and badge. -/
theorem machinesApplyFilters_eq (cache : List Machine) (rawQuery status : String) :
    machinesApplyFilters cache rawQuery status =
      (applyFiltersResults cache rawQuery status,
       machinesUpdateCountBadge cache.length
         (if (jsTruthyStr (jsToLower (jsTrim rawQuery)) || !(status == "all")) = true
          then some (applyFiltersResults cache rawQuery status).length
          else none)) := rfl

/-- When the normalized query is empty and the status selector shows "all",
applyFilters passes the cache through unchanged. -/
theorem applyFiltersResults_unfiltered (cache : List Machine) (rawQuery : String)
    (hq : jsToLower (jsTrim rawQuery) = "") :
    applyFiltersResults cache rawQuery "all" = cache := by
  unfold applyFiltersResults
  have hempty : jsTruthyStr "" = false := by decide
  rw [hq, machinesTextFilter_falsy hempty, machinesStatusFilter_all]

/-- Counterexample to claim C3: in the Products module, after a search that
narrows two cached products down to one, the badge still shows the plain
total from the last load and not the narrowed form. -/
theorem c3_counterexample :
    c3ProductsState.rendered.length = 1 ∧
    c3ProductsState.allProducts.length = 2 ∧
    c3ProductsState.badgeText = "2 productos" ∧
    c3ProductsState.badgeText ≠ "1 de 2 productos" := by decide

/-- Claim C3 as amended: in the Machines module every applyFilters run sets
the badge to "f de t máquina(s)" when the filters narrow the results below
the total and to the plain pluralized total otherwise; in the Products module
handleSearch leaves the badge text untouched. -/
theorem c3_amended_badge :
    (∀ (cache : List Machine) (rawQuery status : String),
       ((machinesApplyFilters cache rawQuery status).1.length < cache.length →
         (machinesApplyFilters cache rawQuery status).2 =
           toString (machinesApplyFilters cache rawQuery status).1.length ++ " de " ++
             toString cache.length ++ " máquina" ++
             (if cache.length ≠ 1 then "s" else "")) ∧
       ((machinesApplyFilters cache rawQuery status).1.length = cache.length →
         (machinesApplyFilters cache rawQuery status).2 =
           toString cache.length ++ " máquina" ++
             (if cache.length ≠ 1 then "s" else ""))) ∧
    (∀ (st : ProductsTableView) (raw : String),
       (productsHandleSearch st raw).badgeText = st.badgeText) := by
  constructor
  · intro cache rawQuery status
    rw [machinesApplyFilters_eq]
    dsimp only
    constructor
    · intro hlt
      have hne : (applyFiltersResults cache rawQuery status).length ≠ cache.length :=
        Nat.ne_of_lt hlt
      have hfil : (jsTruthyStr (jsToLower (jsTrim rawQuery)) || !(status == "all")) = true := by
        by_contra hcon
        have hfalse : (jsTruthyStr (jsToLower (jsTrim rawQuery)) || !(status == "all")) = false :=
          Bool.eq_false_iff.mpr hcon
        rw [Bool.or_eq_false_iff] at hfalse
        obtain ⟨h1, h2⟩ := hfalse
        have hq0 : jsToLower (jsTrim rawQuery) = "" := (jsTruthyStr_eq_false_iff _).mp h1
        have hstatus : status = "all" := by
          have hb : (status == "all") = true := by
            cases hx : (status == "all") with
            | true => rfl
            | false => rw [hx] at h2; exact absurd h2 (by decide)
          exact eq_of_beq hb
        subst hstatus
        rw [applyFiltersResults_unfiltered cache rawQuery hq0] at hlt
        exact lt_irrefl _ hlt
      rw [if_pos hfil]
      unfold machinesUpdateCountBadge
      dsimp only
      rw [if_pos hne]
    · intro heq
      by_cases hfil : (jsTruthyStr (jsToLower (jsTrim rawQuery)) || !(status == "all")) = true
      · rw [if_pos hfil]
        unfold machinesUpdateCountBadge
        dsimp only
        rw [heq, if_neg (by simp)]
      · rw [if_neg hfil]
        rfl
  · intro st raw
    rfl

/-- Witness for the amended C3 at a narrowing concrete input, reproducing the
"1 de 2 máquinas" badge of the spec scenario. -/
theorem c3_amended_badge_witness :
    (machinesApplyFilters [mInyectora, mPrensa] "" "inactive").1.length <
      ([mInyectora, mPrensa] : List Machine).length ∧
    (machinesApplyFilters [mInyectora, mPrensa] "" "inactive").2 = "1 de 2 máquinas" := by
  refine ⟨by decide, ?_⟩
  have h := (c3_amended_badge.1 [mInyectora, mPrensa] "" "inactive").1 (by decide)
  rw [h]
  decide

/-- Counterexample to claim C2: in the Products module, a successful toggle of
the product currently open in the edit form leaves the form status select at
its stale value instead of the new value. -/
theorem c2_counterexample :
    (productsHandleToggleStatus c2ProdState "1" true true (Except.ok ())).2.2 = true ∧
    c2ProdState.editingProduct = some pTapa ∧
    pTapa.id = "1" ∧
    (productsHandleToggleStatus c2ProdState "1" true true (Except.ok ())).1.activeFieldValue
      = "true" ∧
    (productsHandleToggleStatus c2ProdState "1" true true (Except.ok ())).1.activeFieldValue
      ≠ jsBoolString (!true) := by decide

/-- Claim C2 as amended: in the Machines module, a confirmed successful
toggle of the machine currently in the edit form updates the form status
select to the new value and the edit reference to the flipped flag, in the
same success branch that triggers the full reload; the Products toggle
handler never touches its form state. -/
theorem c2_amended_toggle_sync :
    (∀ (fs : MachinesFormState) (machineId : String) (cur : Bool) (e : Machine),
       fs.editingMachine = some e → e.id = machineId →
       (machinesHandleToggleStatus fs machineId cur true (Except.ok ())).1.activeFieldValue =
         jsBoolString (!cur) ∧
       (machinesHandleToggleStatus fs machineId cur true (Except.ok ())).1.editingMachine =
         some { e with isActive := some (!cur) } ∧
       (machinesHandleToggleStatus fs machineId cur true (Except.ok ())).2.2 = true) ∧
    (∀ (fs : ProductsFormState) (productId : String) (cur confirmOk : Bool)
       (apiResult : Except String Unit),
       (productsHandleToggleStatus fs productId cur confirmOk apiResult).1 = fs) := by
  constructor
  · intro fs machineId cur e he hid
    subst hid
    unfold machinesHandleToggleStatus
    rw [he]
    simp
  · intro fs productId cur confirmOk apiResult
    cases confirmOk <;> cases apiResult <;> rfl

/-- Witness for the amended C2 at a concrete machine open in the edit form. -/
theorem c2_amended_toggle_sync_witness :
    (machinesHandleToggleStatus
        { editingMachine := some mInyectora, activeFieldValue := "true" }
        "1" true true (Except.ok ())).1.activeFieldValue = "false" := by
  have h := (c2_amended_toggle_sync.1
    { editingMachine := some mInyectora, activeFieldValue := "true" }
    "1" true mInyectora rfl rfl).1
  exact h.trans rfl

/-- Counterexample to claim C1: a Products create submission whose name
duplicates the cached product pTapa (case-insensitively, trimmed) passes
validation and reaches the API create call instead of being rejected. -/
theorem c1_counterexample :
    pTapa ∈ [pTapa] ∧
    jsToLower (jsTrim c1DupForm.name) = jsToLower (jsTrim pTapa.name) ∧
    isRejected (productsSubmitOutcome none c1DupForm) = false ∧
    productsSubmitOutcome none c1DupForm =
      SubmitOutcome.created (collectFormData c1DupForm) := by decide

/-- Claim C1 as amended: only the Machines module validates uniqueness — a
nonempty submitted name (resp. code) that duplicates a cached machine other
than the one in EDIT state makes the submit handler return rejected, before
any network call; the Products validation reads only the form fields, so any
form whose required fields pass goes through to the API create call no matter
what the cache contains. -/
theorem c1_amended_uniqueness :
    (∀ (cache : List Machine) (editing : Option Machine)
       (nameRaw codeRaw notesRaw activeValue : String) (sv : Bool),
       jsTruthyStr (jsTrim nameRaw) = true →
       isNameDuplicate cache editing (jsTrim nameRaw) = true →
       machinesSubmitOutcome cache editing nameRaw codeRaw notesRaw activeValue sv =
         SubmitOutcome.rejected (machinesValidateForm cache editing nameRaw codeRaw).2) ∧
    (∀ (cache : List Machine) (editing : Option Machine)
       (nameRaw codeRaw notesRaw activeValue : String) (sv : Bool),
       jsTruthyStr (jsTrim codeRaw) = true →
       isCodeDuplicate cache editing (jsTrim codeRaw) = true →
       machinesSubmitOutcome cache editing nameRaw codeRaw notesRaw activeValue sv =
         SubmitOutcome.rejected (machinesValidateForm cache editing nameRaw codeRaw).2) ∧
    (∀ (f : ProductForm),
       jsTruthyStr (jsTrim f.name) = true → jsTruthyStr f.type = true →
       jsTruthyStr f.priceRaw = true → jsNumLtZero f.priceNum = false →
       productsSubmitOutcome none f = SubmitOutcome.created (collectFormData f)) := by
  refine ⟨?_, ?_, ?_⟩
  · intro cache editing nameRaw codeRaw notesRaw activeValue sv h1 h2
    have hv : (machinesValidateForm cache editing nameRaw codeRaw).1 = false := by
      simp [machinesValidateForm, machinesNameErrors, h1, h2]
    simp [machinesSubmitOutcome, hv]
  · intro cache editing nameRaw codeRaw notesRaw activeValue sv h1 h2
    have hv : (machinesValidateForm cache editing nameRaw codeRaw).1 = false := by
      simp [machinesValidateForm, machinesCodeErrors, h1, h2]
    simp [machinesSubmitOutcome, hv]
  · intro f h1 h2 h3 h4
    have hv : (productsValidateForm f).1 = true := by
      simp [productsValidateForm, productsNameErrors, productsTypeErrors,
        productsPriceErrors, h1, h2, h3, h4]
    simp [productsSubmitOutcome, hv]

/-- Witness for the amended C1: a duplicate machine name is rejected, and a
valid product form duplicating a cached name is created anyway. -/
theorem c1_amended_uniqueness_witness :
    machinesSubmitOutcome [mInyectora] none "Inyectora" "XYZ-9" "" "true" false =
      SubmitOutcome.rejected (machinesValidateForm [mInyectora] none "Inyectora" "XYZ-9").2 ∧
    productsSubmitOutcome none c1DupForm =
      SubmitOutcome.created (collectFormData c1DupForm) :=
  ⟨c1_amended_uniqueness.1 [mInyectora] none "Inyectora" "XYZ-9" "" "true" false
      (by decide) (by decide),
   c1_amended_uniqueness.2.2 c1DupForm (by decide) (by decide) (by decide) (by decide)⟩

/-- Claim C7: in both modules, when validation fails the submit handler
returns rejected before reaching any API create or update call, the shown
field-scoped error list is nonempty, and the in-memory cache is unchanged no
matter how the rest of the submission pipeline would have gone. -/
theorem c7_invalid_submit_aborts :
    (∀ (cache : List Machine) (editing : Option Machine)
       (nameRaw codeRaw notesRaw activeValue : String) (sv apiOk : Bool)
       (reloadFetch : Except String (List Machine)),
       (machinesValidateForm cache editing nameRaw codeRaw).1 = false →
       machinesSubmitOutcome cache editing nameRaw codeRaw notesRaw activeValue sv =
         SubmitOutcome.rejected (machinesValidateForm cache editing nameRaw codeRaw).2 ∧
       (machinesValidateForm cache editing nameRaw codeRaw).2 ≠ [] ∧
       machinesCacheAfterSubmit cache editing nameRaw codeRaw notesRaw activeValue sv
         apiOk reloadFetch = cache) ∧
    (∀ (cache : List Product) (editing : Option Product) (f : ProductForm)
       (apiOk : Bool) (reloadFetch : Except String (List Product)),
       (productsValidateForm f).1 = false →
       productsSubmitOutcome editing f =
         SubmitOutcome.rejected (productsValidateForm f).2 ∧
       (productsValidateForm f).2 ≠ [] ∧
       productsCacheAfterSubmit cache editing f apiOk reloadFetch = cache) := by
  constructor
  · intro cache editing nameRaw codeRaw notesRaw activeValue sv apiOk reloadFetch hv
    have ho : machinesSubmitOutcome cache editing nameRaw codeRaw notesRaw activeValue sv =
        SubmitOutcome.rejected (machinesValidateForm cache editing nameRaw codeRaw).2 := by
      simp [machinesSubmitOutcome, hv]
    refine ⟨ho, ?_, ?_⟩
    · have hab : machinesValidateForm cache editing nameRaw codeRaw =
          ((machinesNameErrors cache editing nameRaw).isEmpty &&
             (machinesCodeErrors cache editing codeRaw).isEmpty,
           machinesNameErrors cache editing nameRaw ++
             machinesCodeErrors cache editing codeRaw) := rfl
      have hv' : ((machinesNameErrors cache editing nameRaw).isEmpty &&
          (machinesCodeErrors cache editing codeRaw).isEmpty) = false := by
        rw [hab] at hv; exact hv
      rw [hab]
      exact pair_errors_ne_nil hv'
    · unfold machinesCacheAfterSubmit
      rw [ho]
  · intro cache editing f apiOk reloadFetch hv
    have ho : productsSubmitOutcome editing f =
        SubmitOutcome.rejected (productsValidateForm f).2 := by
      simp [productsSubmitOutcome, hv]
    refine ⟨ho, ?_, ?_⟩
    · have habc : productsValidateForm f =
          ((productsNameErrors f).isEmpty &&
             ((productsTypeErrors f).isEmpty && (productsPriceErrors f).isEmpty),
           productsNameErrors f ++ productsTypeErrors f ++ productsPriceErrors f) := rfl
      have hv' : ((productsNameErrors f).isEmpty &&
          ((productsTypeErrors f).isEmpty && (productsPriceErrors f).isEmpty)) = false := by
        rw [habc] at hv; exact hv
      rw [habc]
      exact triple_errors_ne_nil hv'
    · unfold productsCacheAfterSubmit
      rw [ho]

/-- Witness for C7 at a concrete empty machines create form. -/
theorem c7_invalid_submit_aborts_witness :
    machinesSubmitOutcome [] none "" "" "" "true" false =
      SubmitOutcome.rejected (machinesValidateForm [] none "" "").2 ∧
    (machinesValidateForm [] none "" "").2 ≠ [] ∧
    machinesCacheAfterSubmit [] none "" "" "" "true" false true (Except.ok []) = [] :=
  c7_invalid_submit_aborts.1 [] none "" "" "" "true" false true (Except.ok []) (by decide)

/-- Counterexample to claim C8: a non-2xx response whose JSON body does
contain a message property — the empty string — is converted into the generic
"Error 500: Internal Server Error" message rather than the body message,
because the source uses the falsiness-based fallback errorData.message ||
errorMessage. -/
theorem c8_counterexample :
    request c8Resp = RequestResult.thrown "Error 500: Internal Server Error" ∧
    "Error 500: Internal Server Error" ≠ "" := by decide

/-- Claim C8 as amended: a non-2xx response throws the body message whenever
the body is JSON carrying a nonempty (truthy) message string, and otherwise
the generic "Error status: statusText" string; a 204 response resolves to no
payload regardless of its body. -/
theorem c8_amended_request_errors :
    (∀ (r : HttpResponse) (m : String),
       respOk r.status = false → r.jsonResult = some (JsonValue.obj (some m)) →
       m ≠ "" → request r = RequestResult.thrown m) ∧
    (∀ (r : HttpResponse),
       respOk r.status = false →
       (∀ m, r.jsonResult = some (JsonValue.obj (some m)) → m = "") →
       request r = RequestResult.thrown
         ("Error " ++ toString r.status ++ ": " ++ r.statusText)) ∧
    (∀ (r : HttpResponse), r.status = 204 → request r = RequestResult.resolvedNull) := by
  refine ⟨?_, ?_, ?_⟩
  · intro r m h1 h2 hm
    have hc : (!(respOk r.status)) = true := by rw [h1]; rfl
    unfold request
    rw [if_pos hc, h2]
    simp [hm]
  · intro r h1 hall
    have hc : (!(respOk r.status)) = true := by rw [h1]; rfl
    unfold request
    rw [if_pos hc]
    rcases hj : r.jsonResult with _ | v
    · simp [hj]
    · rcases v with om | _
      · rcases om with _ | m
        · simp [hj]
        · have hm : m = "" := hall m hj
          subst hm
          simp [hj]
      · simp [hj]
  · intro r h
    unfold request
    rw [h]
    rw [if_neg (by decide), if_pos (by decide)]

/-- Witness for the amended C8: a 500 with body message "db down" throws
"db down"; a bodyless 204 resolves to null. -/
theorem c8_amended_request_witness :
    request { status := 500, statusText := "Internal Server Error",
              jsonResult := some (JsonValue.obj (some "db down")) } =
      RequestResult.thrown "db down" ∧
    request { status := 204, statusText := "No Content", jsonResult := none } =
      RequestResult.resolvedNull :=
  ⟨c8_amended_request_errors.1 _ "db down" (by decide) rfl (by decide),
   c8_amended_request_errors.2.2 _ rfl⟩

end CapFlow
